import Mathlib

/-!
Verification of the ROI (Region Of Interest) editing engine and batch crop
pipeline of `src/py/crop.py`.

The Python source is shallowly embedded: the mutable classes `Roi` and
`RoiWindow` become immutable structures, in-place mutation becomes explicit
state passing, and Python `int` coordinates become `Int`.  Field and function
names follow the source (`coordinates`, `setRoi`, `sortCoordinates`,
`leftMouseDown`, ...).
-/

namespace Crop

/-- A point `[x, y]` of the canvas, embedded as a pair of integers. -/
abbrev Point := Int × Int

/-- Embedding of class `Roi` (crop.py lines 24-78).  `coordinates` is the pair
(top-left candidate, bottom-right candidate), `width`/`height` are the cached
derived dimensions and `status` is the "new and not yet saved to Roi list"
draft flag. -/
structure Roi where
  coordinates : Point × Point
  width : Int
  height : Int
  status : Bool
deriving DecidableEq, Repr

namespace Roi

/-- `Roi.__init__`: both corners `[0,0]`, zero dimensions, draft flag off. -/
def init : Roi := ⟨((0, 0), (0, 0)), 0, 0, false⟩

/-- `Roi.setStatus`. -/
def setStatus (r : Roi) (s : Bool) : Roi := { r with status := s }

/-- `Roi.sortCoordinates`: replace the corner pair by its element-wise
minimum and element-wise maximum (crop.py lines 64-68). -/
def sortCoordinates (r : Roi) : Roi :=
  { r with coordinates :=
      ((min r.coordinates.1.1 r.coordinates.2.1, min r.coordinates.1.2 r.coordinates.2.2),
       (max r.coordinates.1.1 r.coordinates.2.1, max r.coordinates.1.2 r.coordinates.2.2)) }

/-- `Roi.calculateDimensions`: recompute the cached `width`/`height` from the
stored corners (crop.py lines 70-72). -/
def calculateDimensions (r : Roi) : Roi :=
  { r with width := r.coordinates.2.1 - r.coordinates.1.1,
           height := r.coordinates.2.2 - r.coordinates.1.2 }

/-- `Roi.setCoordinates(i, x, y, sort)`: overwrite corner `i`, optionally sort
the corners, always recompute the dimensions (crop.py lines 44-48).  The
source only ever calls this with `i` equal to 0 or 1 (anything else would
raise an IndexError); any nonzero `i` selects corner 1 here. -/
def setCoordinates (r : Roi) (i : Nat) (x y : Int) (sort : Bool) : Roi :=
  let r' : Roi :=
    match i with
    | 0 => { r with coordinates := ((x, y), r.coordinates.2) }
    | _ => { r with coordinates := (r.coordinates.1, (x, y)) }
  let r'' := if sort then r'.sortCoordinates else r'
  r''.calculateDimensions

/-- `Roi.setRoi(a, b)`: overwrite both corners, sort, recompute dimensions
(crop.py lines 50-53). -/
def setRoi (r : Roi) (a b : Point) : Roi :=
  (({ r with coordinates := (a, b) } : Roi).sortCoordinates).calculateDimensions

/-- `Roi.reset`: corners back to `[0,0]`, draft flag cleared.  Note the source
does NOT call `calculateDimensions` here, so `width`/`height` keep their old
values (crop.py lines 40-42). -/
def reset (r : Roi) : Roi :=
  ({ r with coordinates := ((0, 0), (0, 0)) } : Roi).setStatus false

end Roi

/-- The Python field `RoiWindow.relativeCoordinates` alternates between a
two-element list `[a, b]` (set on a resize hit) and a dict
`{idx: [dx, dy]}` (set on a drag hit); embedded as a sum. -/
inductive RelCoords where
  | pair (a b : Int)
  | dict (m : List (Nat × (Int × Int)))
deriving DecidableEq, Repr

namespace RelCoords

/-- `self.relativeCoordinates[i]` read as a single number, as done in the
resizing branch of `leftMouseMove`.  On the dict form the Python code would
raise; that case is unreachable in the modelled flows and returns 0. -/
def atIdx (rc : RelCoords) (i : Nat) : Int :=
  match rc with
  | .pair a b => if i = 0 then a else b
  | .dict _ => 0

/-- `self.relativeCoordinates[idx]` read as an offset pair, as done in the
dragging branch of `leftMouseMove`.  On the pair form, or a missing key, the
Python code would raise; those cases are unreachable in the modelled flows
and return `(0, 0)`. -/
def lookupPair (rc : RelCoords) (i : Nat) : Int × Int :=
  match rc with
  | .dict m => (m.lookup i).getD (0, 0)
  | .pair _ _ => (0, 0)

end RelCoords

/-- The editing-session state of class `RoiWindow` (crop.py lines 499-566),
restricted to the fields the pointer/keyboard logic reads and writes:
the working collection `roiCoordinates` (a deep copy at session start), the
in-progress draft `newRoi`, the offset store `relativeCoordinates`, the
dirty flag `saved`, the drag index `dragging`, the resize state `resizing`
(index plus the `(left, top, right, bottom)` handle mask) and the
`selection` index list. -/
structure RoiWindow where
  roiCoordinates : List Roi
  newRoi : Roi
  relativeCoordinates : RelCoords
  saved : Bool
  dragging : Option Nat
  resizing : Option (Nat × (Bool × Bool × Bool × Bool))
  selection : List Nat
deriving DecidableEq, Repr

/-- A fresh `RoiWindow` over a given initial collection: `saved=True`,
`dragging=None`, `resizing=None`, empty selection, fresh draft. -/
def RoiWindow.init (rois : List Roi) : RoiWindow :=
  ⟨rois, Roi.init, .pair 0 0, true, none, none, []⟩

namespace RoiWindow

/-- The handle radius, `radius = 10` in `leftMouseDown`. -/
def radius : Int := 10

/-- Per-ROI hit result of the `leftMouseDown` elif-chain: a resize hit
carries the `(left, top, right, bottom)` mask and the recorded
`relativeCoordinates` list; a body hit starts dragging. -/
inductive RoiHit where
  | resize (mask : Bool × Bool × Bool × Bool) (rel : Int × Int)
  | body
deriving DecidableEq, Repr

/-- The elif-chain of `leftMouseDown` (crop.py lines 675-711) for one ROI:
four corner zones of half-width `2*radius`, then four edge zones of
half-width `radius`, then the body; first match wins, no match gives
`none`. -/
def hitOne (roi : Roi) (x y : Int) : Option RoiHit :=
  let (p1, p2) := roi.coordinates
  let x1 := p1.1; let y1 := p1.2; let x2 := p2.1; let y2 := p2.2
  if x1 - radius * 2 ≤ x ∧ x ≤ x1 + radius * 2 ∧ y1 - radius * 2 ≤ y ∧ y ≤ y1 + radius * 2 then
    some (.resize (true, true, false, false) (x1 - x, y1 - y))       -- top-left
  else if x2 - radius * 2 ≤ x ∧ x ≤ x2 + radius * 2 ∧ y1 - radius * 2 ≤ y ∧ y ≤ y1 + radius * 2 then
    some (.resize (false, true, true, false) (x2 - x, y1 - y))       -- top-right
  else if x1 - radius * 2 ≤ x ∧ x ≤ x1 + radius * 2 ∧ y2 - radius * 2 ≤ y ∧ y ≤ y2 + radius * 2 then
    some (.resize (true, false, false, true) (x1 - x, y2 - y))       -- bottom-left
  else if x2 - radius * 2 ≤ x ∧ x ≤ x2 + radius * 2 ∧ y2 - radius * 2 ≤ y ∧ y ≤ y2 + radius * 2 then
    some (.resize (false, false, true, true) (x2 - x, y2 - y))       -- bottom-right
  else if x1 - radius ≤ x ∧ x ≤ x2 + radius ∧ y1 - radius ≤ y ∧ y ≤ y1 + radius then
    some (.resize (false, true, false, false) (x, y1 - y))           -- top
  else if x1 - radius ≤ x ∧ x ≤ x2 + radius ∧ y2 - radius ≤ y ∧ y ≤ y2 + radius then
    some (.resize (false, false, false, true) (x, y2 - y))           -- bottom
  else if x1 - radius ≤ x ∧ x ≤ x1 + radius ∧ y1 - radius ≤ y ∧ y ≤ y2 + radius then
    some (.resize (true, false, false, false) (x1 - x, y))           -- left
  else if x2 - radius ≤ x ∧ x ≤ x2 + radius ∧ y1 - radius ≤ y ∧ y ≤ y2 + radius then
    some (.resize (false, false, true, false) (x2 - x, y))           -- right
  else if x1 ≤ x ∧ x ≤ x2 ∧ y1 ≤ y ∧ y ≤ y2 then
    some .body
  else
    none

/-- Apply one iteration of the `leftMouseDown` loop body at index `idx`:
a resize hit overwrites `resizing` and `relativeCoordinates`, a body hit
overwrites `dragging`, no hit leaves the state alone. -/
def hitRoi (idx : Nat) (roi : Roi) (x y : Int) (s : RoiWindow) : RoiWindow :=
  match hitOne roi x y with
  | some (.resize mask rel) =>
      { s with resizing := some (idx, mask), relativeCoordinates := .pair rel.1 rel.2 }
  | some .body => { s with dragging := some idx }
  | none => s

/-- The `for idx, roi in enumerate(self.roiCoordinates)` loop of
`leftMouseDown`, starting at index `i`.  The loop has no `break`, so every
ROI is visited and later hits overwrite earlier ones. -/
def scanFrom (x y : Int) (i : Nat) : List Roi → RoiWindow → RoiWindow
  | [], s => s
  | roi :: rest, s => scanFrom x y (i + 1) rest (hitRoi i roi x y s)

/-- `RoiWindow.leftMouseDown` (crop.py lines 672-726).  The for-else has no
`break`, so the else branch (seeding the draft's first corner, unsorted)
runs on every call.  Afterwards: a pending resize collapses the selection to
its index; otherwise a pending drag extends/collapses the selection and
records per-index top-left offsets; otherwise the selection is reset. -/
def leftMouseDown (s : RoiWindow) (x y : Int) : RoiWindow :=
  let s1 := scanFrom x y 0 s.roiCoordinates s
  let s2 := { s1 with newRoi := s1.newRoi.setCoordinates 0 x y false }
  match s2.resizing with
  | some (idx, _) => { s2 with selection := [idx] }
  | none =>
    match s2.dragging with
    | some idx =>
      let sel := if idx ∈ s2.selection then s2.selection else [idx]
      let rel := sel.map (fun i =>
        (i, ((s2.roiCoordinates.getD i Roi.init).coordinates.1.1 - x,
             (s2.roiCoordinates.getD i Roi.init).coordinates.1.2 - y)))
      { s2 with selection := sel, relativeCoordinates := .dict rel }
    | none => { s2 with selection := [] }

/-- `RoiWindow.leftMouseUp` (crop.py lines 728-740): end a resize (clearing
the selection), or end a drag, or commit the draft — second corner set
unsorted, a copy appended to the collection, the draft template reset and
the selection cleared. -/
def leftMouseUp (s : RoiWindow) (x y : Int) : RoiWindow :=
  match s.resizing with
  | some _ => { s with selection := [], resizing := none }
  | none =>
    match s.dragging with
    | some _ => { s with dragging := none }
    | none =>
      let nr := s.newRoi.setCoordinates 1 x y false
      { s with roiCoordinates := s.roiCoordinates ++ [nr],
               newRoi := nr.reset,
               selection := [] }

/-- One iteration of the dragging loop of `leftMouseMove`: move the ROI at
`idx` so its top-left corner is the pointer plus the recorded offset, and
its bottom-right corner that plus the current cached width/height. -/
def dragStep (x y : Int) (rc : RelCoords) (rois : List Roi) (idx : Nat) : List Roi :=
  let roi := rois.getD idx Roi.init
  let off := rc.lookupPair idx
  rois.set idx (roi.setRoi (x + off.1, y + off.2)
    (roi.width + x + off.1, roi.height + y + off.2))

/-- `RoiWindow.leftMouseMove` (crop.py lines 742-774, without the drawing
calls): dragging moves every selected ROI; resizing updates the flagged
axes of the resized ROI one at a time, each with sorting enabled, in source
order top, bottom, left, right; otherwise the draft gets its status flag
set and its second corner updated, unsorted. -/
def leftMouseMove (s : RoiWindow) (x y : Int) : RoiWindow :=
  match s.dragging with
  | some _ =>
    if s.selection.length > 0 then
      { s with roiCoordinates := s.selection.foldl (dragStep x y s.relativeCoordinates) s.roiCoordinates }
    else s
  | none =>
    match s.resizing with
    | some (ridx, mask) =>
      let roi0 := s.roiCoordinates.getD ridx Roi.init
      let roi1 := if mask.2.1 then
          roi0.setCoordinates 0 roi0.coordinates.1.1 (y + s.relativeCoordinates.atIdx 1) true
        else roi0
      let roi2 := if mask.2.2.2 then
          roi1.setCoordinates 1 roi1.coordinates.2.1 (y + s.relativeCoordinates.atIdx 1) true
        else roi1
      let roi3 := if mask.1 then
          roi2.setCoordinates 0 (x + s.relativeCoordinates.atIdx 0) roi2.coordinates.1.2 true
        else roi2
      let roi4 := if mask.2.2.1 then
          roi3.setCoordinates 1 (x + s.relativeCoordinates.atIdx 0) roi3.coordinates.2.2 true
        else roi3
      { s with roiCoordinates := s.roiCoordinates.set ridx roi4 }
    | none =>
      { s with newRoi := (s.newRoi.setStatus true).setCoordinates 1 x y false }

/-- `RoiWindow.shiftLeftMouseDown` (crop.py lines 840-846): append every
ROI whose body contains the pointer and that is not yet selected. -/
def shiftLeftMouseDown (s : RoiWindow) (x y : Int) : RoiWindow :=
  { s with selection := (List.range s.roiCoordinates.length).foldl (fun sel i =>
      let roi := s.roiCoordinates.getD i Roi.init
      if roi.coordinates.1.1 ≤ x ∧ x ≤ roi.coordinates.2.1 ∧
         roi.coordinates.1.2 ≤ y ∧ y ≤ roi.coordinates.2.2 ∧ i ∉ sel
      then sel ++ [i] else sel) s.selection }

/-- `RoiWindow.deleteRoi` with a list key (crop.py lines 852-858): keep the
entries whose index is not in `key`, then reset the selection.  Note the
source never touches `saved` here. -/
def deleteRoi (s : RoiWindow) (key : List Nat) : RoiWindow :=
  let survivors := ((List.range s.roiCoordinates.length).filter (fun i => i ∉ key)).map
    (fun i => s.roiCoordinates.getD i Roi.init)
  { s with roiCoordinates := survivors, selection := [] }

/-- The saving branch of the `close` handler inside `RoiWindow.editRoi`
(crop.py lines 874-885): write the dialog's X_1/Y_1 then X_2/Y_2 into the
ROI with the default `sort=True`.  Note the source never touches `saved`
here. -/
def editRoiApply (s : RoiWindow) (roiKey : Nat) (x1 y1 x2 y2 : Int) : RoiWindow :=
  let roi := s.roiCoordinates.getD roiKey Roi.init
  let roi := (roi.setCoordinates 0 x1 y1 true).setCoordinates 1 x2 y2 true
  { s with roiCoordinates := s.roiCoordinates.set roiKey roi }

/-- The pointer-event kinds dispatched by `RoiWindow.mouseEvent`:
left press without shift, left release without shift, motion with the left
button held (`event.state == 264`), and left press with shift. -/
inductive PEvent where
  | down (x y : Int)
  | up (x y : Int)
  | move (x y : Int)
  | shiftDown (x y : Int)
deriving DecidableEq, Repr

/-- `RoiWindow.mouseEvent` (crop.py lines 646-670) for the left-button
events: press and release without shift set `saved = False` before
dispatching; shift-press and drag-motion do not touch `saved`. -/
def mouseEvent (s : RoiWindow) (e : PEvent) : RoiWindow :=
  match e with
  | .down x y => leftMouseDown { s with saved := false } x y
  | .up x y => leftMouseUp { s with saved := false } x y
  | .move x y => leftMouseMove s x y
  | .shiftDown x y => shiftLeftMouseDown s x y

/-- A list of events processed in order. -/
def runEvents (s : RoiWindow) (es : List PEvent) : RoiWindow :=
  es.foldl mouseEvent s

/-- Number of simultaneously active interaction modes: a pending drag
(`dragging` set), a pending resize (`resizing` set), and an in-progress
draft (the draft's `status` flag, set by `leftMouseMove` while drawing and
cleared by `reset` on commit). -/
def activeModes (s : RoiWindow) : Nat :=
  (if s.dragging.isSome then 1 else 0) + (if s.resizing.isSome then 1 else 0) +
  (if s.newRoi.status then 1 else 0)

end RoiWindow

/-- `RoiWindow.importRoisFile` (crop.py lines 964-981): if at least one ROI
already exists the user chooses replace or extend; an empty collection is
always replaced.  No validation of the imported entries is performed and no
error can be raised past the file read. -/
def importRoisFile (existing imported : List Roi) (replace : Bool) : List Roi :=
  if existing.length > 0 then
    if replace then imported else existing ++ imported
  else imported

/-- Concrete mid-drag session used to evaluate the multi-drag theorem: three
ROIs, indices 0 and 2 selected, offsets recorded by a pointer-down at
(5,5) on ROI 0's body. -/
def dragDemo : RoiWindow :=
  { roiCoordinates :=
      [⟨((10, 10), (30, 40)), 20, 30, false⟩,
       ⟨((0, 0), (5, 5)), 5, 5, false⟩,
       ⟨((100, 100), (110, 120)), 10, 20, false⟩],
    newRoi := Roi.init,
    relativeCoordinates := .dict [(0, (5, 5)), (2, (95, 95))],
    saved := false,
    dragging := some 0,
    resizing := none,
    selection := [0, 2] }

/-- Concrete mid-resize session used to evaluate the resize theorems: two
ROIs, ROI 0 grabbed at its top edge (mask `(0,1,0,0)`) with zero anchor
offset. -/
def resizeDemo : RoiWindow :=
  { roiCoordinates :=
      [⟨((0, 0), (10, 10)), 10, 10, false⟩,
       ⟨((50, 50), (70, 90)), 20, 40, false⟩],
    newRoi := Roi.init,
    relativeCoordinates := .pair 0 0,
    saved := false,
    dragging := none,
    resizing := some (0, (false, true, false, false)),
    selection := [0] }

/-- One crop job submitted to ffmpeg by `VideoCropperGUI.crop_video`:
the video (by its position in the dict iteration), the 1-based ROI index
`i` used in the output name, and the `crop=w:h:x:y` filter parameters
computed from the ROI's corners. -/
structure CropJob where
  video : Nat
  roiIndex : Nat
  cropW : Int
  cropH : Int
  cropX : Int
  cropY : Int
deriving DecidableEq, Repr

/-- Observable outcome of one `VideoCropperGUI.crop_video` run:
`renderedVideo` is the success counter of the same name; `statusSets` lists
the value of `rendered_video` at each `status_var.set` call (the initial
reset to 0 and one per success — the percent passed is
`rendered_video / total_crops * 100`, monotone in this count);
`errorsReported` counts `show_error_message` calls; `jobs` lists the jobs
submitted to ffmpeg in order; `totalCrops` is the up-front job total; and
`aborted` records the early `return` on a directory-creation failure. -/
structure CropRunResult where
  renderedVideo : Nat
  statusSets : List Nat
  errorsReported : Nat
  jobs : List CropJob
  totalCrops : Nat
  aborted : Bool
deriving DecidableEq, Repr

/-- The inner per-ROI loop body of `crop_video` (crop.py lines 363-401) for
one video.  `jobFails vid i` tells whether the ffmpeg invocation for the
`i`-th ROI (1-based) of video `vid` raises; `mkdirFails vid` tells whether
creating the per-video subfolder raises (attempted on the first ROI, when
the folder does not exist yet; a failure shows an error and returns from
the whole function, modelled by the `aborted` flag). -/
def cropRoiStep (jobFails : Nat → Nat → Bool) (mkdirFails : Nat → Bool) (vid : Nat)
    (acc : CropRunResult) (p : Nat × Roi) : CropRunResult :=
  if acc.aborted then acc
  else
    let i := p.1 + 1
    let x1 := p.2.coordinates.1.1
    let y1 := p.2.coordinates.1.2
    let x2 := p.2.coordinates.2.1
    let y2 := p.2.coordinates.2.2
    if i = 1 ∧ mkdirFails vid then
      { acc with aborted := true, errorsReported := acc.errorsReported + 1 }
    else
      let acc := { acc with jobs := acc.jobs ++ [(⟨vid, i, x2 - x1, y2 - y1, x1, y1⟩ : CropJob)] }
      if jobFails vid i then
        { acc with errorsReported := acc.errorsReported + 1 }
      else
        { acc with renderedVideo := acc.renderedVideo + 1,
                   statusSets := acc.statusSets ++ [acc.renderedVideo + 1] }

/-- The outer per-video loop body of `crop_video` (crop.py lines 355-403):
videos with an empty ROI list are skipped. -/
def cropVideoStep (jobFails : Nat → Nat → Bool) (mkdirFails : Nat → Bool)
    (acc : CropRunResult) (v : Nat × List Roi) : CropRunResult :=
  if acc.aborted then acc
  else if v.2.isEmpty then acc
  else v.2.enum.foldl (cropRoiStep jobFails mkdirFails v.1) acc

/-- Boolean test that a list of counters never decreases, used to state the
progress-monotonicity part of the batch scenario. -/
def nondecreasing : List Nat → Bool
  | [] => true
  | [_] => true
  | a :: b :: t => a ≤ b && nondecreasing (b :: t)

/-- `VideoCropperGUI.crop_video` (crop.py lines 335-408) from the point
after the output folder has been chosen: reset the progress variable to 0,
compute `total_crops` up front, then iterate videos and ROIs.  `roiDict`
is the per-video ROI lists in dict iteration order; validation of the
pre-conditions (video selected, non-empty dict, output folder) and the GUI
progress window are outside the model. -/
def cropVideo (roiDict : List (List Roi)) (jobFails : Nat → Nat → Bool)
    (mkdirFails : Nat → Bool) : CropRunResult :=
  let total := (roiDict.map List.length).sum
  let init : CropRunResult := ⟨0, [0], 0, [], total, false⟩
  roiDict.enum.foldl (cropVideoStep jobFails mkdirFails) init

end Crop

/-- C1: after `setRoi(a, b)` or `setCoordinates(i, x, y, sort=True)` the stored
corners satisfy `corners[0].x ≤ corners[1].x` and `corners[0].y ≤ corners[1].y`,
and the cached `width`/`height` equal `corners[1] - corners[0]` component-wise,
both nonnegative. -/
theorem c1_normalization_invariant :
    (∀ (r : Crop.Roi) (a b : Crop.Point),
      let r' := r.setRoi a b
      r'.coordinates.1.1 ≤ r'.coordinates.2.1 ∧
      r'.coordinates.1.2 ≤ r'.coordinates.2.2 ∧
      r'.width = r'.coordinates.2.1 - r'.coordinates.1.1 ∧
      r'.height = r'.coordinates.2.2 - r'.coordinates.1.2 ∧
      0 ≤ r'.width ∧ 0 ≤ r'.height) ∧
    (∀ (r : Crop.Roi) (i : Nat) (x y : Int),
      let r' := r.setCoordinates i x y true
      r'.coordinates.1.1 ≤ r'.coordinates.2.1 ∧
      r'.coordinates.1.2 ≤ r'.coordinates.2.2 ∧
      r'.width = r'.coordinates.2.1 - r'.coordinates.1.1 ∧
      r'.height = r'.coordinates.2.2 - r'.coordinates.1.2 ∧
      0 ≤ r'.width ∧ 0 ≤ r'.height) := by
  constructor
  · intro r a b
    dsimp [Crop.Roi.setRoi, Crop.Roi.sortCoordinates, Crop.Roi.calculateDimensions]
    refine ⟨?_, ?_, rfl, rfl, ?_, ?_⟩ <;> omega
  · intro r i x y
    rcases i with _ | i <;>
      dsimp [Crop.Roi.setCoordinates, Crop.Roi.sortCoordinates,
        Crop.Roi.calculateDimensions] <;>
      refine ⟨?_, ?_, ?_, ?_, ?_, ?_⟩ <;> first | trivial | omega

/-- C2 (amended): a pointer-up while drafting a new ROI sets the draft's
second corner WITHOUT normalizing (`sort=False`), appends a copy of the
draft to the collection RETAINING its draft flag (which a preceding move
set to True; the subsequent `reset()` only clears the template), resets the
draft template, clears the selection and returns to the idle state.  On the
scenario — empty collection, `down(10,10)`, `move(50,60)`, `up(50,60)` —
this yields exactly one ROI with corners `[[10,10],[50,60]]`, width 40 and
height 50, whose draft flag is still set. -/
theorem c2_draft_commit_amended :
    Crop.RoiWindow.runEvents (Crop.RoiWindow.init [])
        [.down 10 10, .move 50 60, .up 50 60] =
      ⟨[⟨((10, 10), (50, 60)), 40, 50, true⟩],
       ⟨((0, 0), (0, 0)), 40, 50, false⟩,
       .pair 0 0, false, none, none, []⟩ := by
  decide

/-- C2 counterexample: drafting from `down(50,60)` to `up(10,10)` appends the
ROI with corners `[[50,60],[10,10]]` — NOT normalized (`corners[0].x >
corners[1].x`), width −40 — and with the draft flag still `True`,
contradicting "normalizes the draft's two corners ... with the draft flag
cleared". -/
theorem c2_counterexample :
    (Crop.RoiWindow.runEvents (Crop.RoiWindow.init [])
        [.down 50 60, .move 10 10, .up 10 10]).roiCoordinates =
      [⟨((50, 60), (10, 10)), -40, -50, true⟩] ∧
    ((Crop.RoiWindow.runEvents (Crop.RoiWindow.init [])
        [.down 50 60, .move 10 10, .up 10 10]).roiCoordinates.getD 0
          Crop.Roi.init).coordinates.2.1 <
      ((Crop.RoiWindow.runEvents (Crop.RoiWindow.init [])
        [.down 50 60, .move 10 10, .up 10 10]).roiCoordinates.getD 0
          Crop.Roi.init).coordinates.1.1 ∧
    ((Crop.RoiWindow.runEvents (Crop.RoiWindow.init [])
        [.down 50 60, .move 10 10, .up 10 10]).roiCoordinates.getD 0
          Crop.Roi.init).status = true := by
  decide

/-- The hit-scan loop splits over list concatenation: scanning `l₁ ++ l₂`
from index `i` first scans `l₁`, then scans `l₂` from index
`i + l₁.length`. -/
theorem scanFrom_append (x y : Int) (i : Nat) (l₁ l₂ : List Crop.Roi)
    (s : Crop.RoiWindow) :
    Crop.RoiWindow.scanFrom x y i (l₁ ++ l₂) s =
      Crop.RoiWindow.scanFrom x y (i + l₁.length) l₂
        (Crop.RoiWindow.scanFrom x y i l₁ s) := by
  induction l₁ generalizing i s with
  | nil => simp [Crop.RoiWindow.scanFrom]
  | cons a t ih =>
    simp only [List.cons_append, Crop.RoiWindow.scanFrom, List.length_cons]
    rw [show i + (t.length + 1) = i + 1 + t.length from by omega]
    exact ih (i + 1) (Crop.RoiWindow.hitRoi i a x y s)

/-- C3 (amended): within one ROI the `leftMouseDown` chain checks the four
corner zones (half-width `2·R`, `R = 10`), then the four edge zones, then
the body, first match winning — here witnessed for the top-left corner
zone, which wins regardless of any other zone containing the point.  ROIs
are checked in collection order but WITHOUT an early exit, so when the
zones of several ROIs contain the point the LATEST-registered matching ROI
overwrites the earlier ones: a body hit on the last ROI leaves `dragging`
at the last index, and a handle hit on the last ROI leaves `resizing` at
the last index with its mask and collapses the selection to it. -/
theorem c3_hit_order_amended :
    (∀ (roi : Crop.Roi) (x y : Int),
      roi.coordinates.1.1 - Crop.RoiWindow.radius * 2 ≤ x →
      x ≤ roi.coordinates.1.1 + Crop.RoiWindow.radius * 2 →
      roi.coordinates.1.2 - Crop.RoiWindow.radius * 2 ≤ y →
      y ≤ roi.coordinates.1.2 + Crop.RoiWindow.radius * 2 →
      Crop.RoiWindow.hitOne roi x y =
        some (.resize (true, true, false, false)
          (roi.coordinates.1.1 - x, roi.coordinates.1.2 - y))) ∧
    (∀ (s : Crop.RoiWindow) (pre : List Crop.Roi) (roi : Crop.Roi) (x y : Int),
      s.roiCoordinates = pre ++ [roi] →
      Crop.RoiWindow.hitOne roi x y = some .body →
      (Crop.RoiWindow.leftMouseDown s x y).dragging = some pre.length) ∧
    (∀ (s : Crop.RoiWindow) (pre : List Crop.Roi) (roi : Crop.Roi) (x y : Int)
        (mask : Bool × Bool × Bool × Bool) (rel : Int × Int),
      s.roiCoordinates = pre ++ [roi] →
      Crop.RoiWindow.hitOne roi x y = some (.resize mask rel) →
      (Crop.RoiWindow.leftMouseDown s x y).resizing = some (pre.length, mask) ∧
      (Crop.RoiWindow.leftMouseDown s x y).selection = [pre.length]) := by
  refine ⟨?_, ?_, ?_⟩
  · intro roi x y h1 h2 h3 h4
    rcases hr : roi.coordinates with ⟨⟨x1, y1⟩, ⟨x2, y2⟩⟩
    rw [hr] at h1 h2 h3 h4
    simp only at h1 h2 h3 h4
    simp only [Crop.RoiWindow.hitOne, hr]
    rw [if_pos ⟨h1, h2, h3, h4⟩]
  · intro s pre roi x y hs hhit
    simp only [Crop.RoiWindow.leftMouseDown, hs, scanFrom_append, Nat.zero_add,
      Crop.RoiWindow.scanFrom, Crop.RoiWindow.hitRoi, hhit]
    rcases hres : (Crop.RoiWindow.scanFrom x y 0 pre s).resizing with _ | ⟨j, m⟩ <;>
      simp [hres]
  · intro s pre roi x y mask rel hs hhit
    simp only [Crop.RoiWindow.leftMouseDown, hs, scanFrom_append, Nat.zero_add,
      Crop.RoiWindow.scanFrom, Crop.RoiWindow.hitRoi, hhit]
    refine ⟨?_, ?_⟩ <;> first | rfl | trivial

/-- C3 counterexample: two identical ROIs whose bodies both contain the
pointer.  The claim says the earliest-registered ROI (index 0) wins the
tie, but after `leftMouseDown` at (50,50) the pending drag and the
selection point at index 1, the latest one. -/
theorem c3_counterexample :
    Crop.RoiWindow.hitOne (⟨((0, 0), (100, 100)), 100, 100, false⟩ : Crop.Roi)
        50 50 = some .body ∧
    (Crop.RoiWindow.leftMouseDown
        (Crop.RoiWindow.init
          [⟨((0, 0), (100, 100)), 100, 100, false⟩,
           ⟨((0, 0), (100, 100)), 100, 100, false⟩]) 50 50).dragging = some 1 ∧
    (Crop.RoiWindow.leftMouseDown
        (Crop.RoiWindow.init
          [⟨((0, 0), (100, 100)), 100, 100, false⟩,
           ⟨((0, 0), (100, 100)), 100, 100, false⟩]) 50 50).selection = [1] := by
  decide

/-- C4 (amended): starting from an idle session (no pending drag, no pending
resize, draft flag clear) whose collection holds AT MOST ONE ROI, a
pointer-down activates at most one of the three interaction modes.  With
two or more ROIs the no-break scan can activate two modes at once (see the
counterexample), so mutual exclusion only holds for this restricted case. -/
theorem c4_mutual_exclusion_amended :
    ∀ (s : Crop.RoiWindow) (x y : Int),
      s.dragging = none → s.resizing = none → s.newRoi.status = false →
      s.roiCoordinates.length ≤ 1 →
      (Crop.RoiWindow.leftMouseDown s x y).activeModes ≤ 1 := by
  intro s x y hd hr hn hlen
  rcases hros : s.roiCoordinates with _ | ⟨r, rest⟩
  · simp only [Crop.RoiWindow.leftMouseDown, hros, Crop.RoiWindow.scanFrom, hr, hd]
    simp [Crop.RoiWindow.activeModes, Crop.Roi.setCoordinates,
      Crop.Roi.calculateDimensions, hd, hr, hn]
  · rcases rest with _ | ⟨r2, rest2⟩
    · simp only [Crop.RoiWindow.leftMouseDown, hros, Crop.RoiWindow.scanFrom,
        Crop.RoiWindow.hitRoi]
      rcases hhit : Crop.RoiWindow.hitOne r x y with _ | h
      · simp only [hhit, hr, hd]
        simp [Crop.RoiWindow.activeModes, Crop.Roi.setCoordinates,
          Crop.Roi.calculateDimensions, hd, hr, hn]
      · rcases h with ⟨mask, rel⟩ | _
        · simp only [hhit]
          simp [Crop.RoiWindow.activeModes, Crop.Roi.setCoordinates,
            Crop.Roi.calculateDimensions, hd, hn]
        · simp only [hhit, hr]
          simp [Crop.RoiWindow.activeModes, Crop.Roi.setCoordinates,
            Crop.Roi.calculateDimensions, hr, hn]
    · rw [hros] at hlen
      simp only [List.length_cons] at hlen
      omega

/-- Witness for C4 (amended) at a concrete input: one ROI, pointer at
(50,50). -/
theorem c4_mutual_exclusion_witness :
    (Crop.RoiWindow.leftMouseDown
      (Crop.RoiWindow.init [⟨((0, 0), (10, 10)), 10, 10, false⟩]) 50 50).activeModes ≤ 1 :=
  c4_mutual_exclusion_amended
    (Crop.RoiWindow.init [⟨((0, 0), (10, 10)), 10, 10, false⟩]) 50 50
    rfl rfl rfl (by decide)

/-- C4 counterexample: ROI 0 = `[[40,40],[60,60]]`, ROI 1 =
`[[0,0],[200,200]]`, pointer-down at (50,50).  The point lies in ROI 0's
top-left corner zone AND inside ROI 1's body (in none of ROI 1's handle
zones), and because the scan loop has no break, BOTH `resizing = (0, mask)`
and `dragging = 1` are active afterwards — two interaction modes at once. -/
theorem c4_counterexample :
    (Crop.RoiWindow.leftMouseDown
        (Crop.RoiWindow.init
          [⟨((40, 40), (60, 60)), 20, 20, false⟩,
           ⟨((0, 0), (200, 200)), 200, 200, false⟩]) 50 50).resizing =
      some (0, (true, true, false, false)) ∧
    (Crop.RoiWindow.leftMouseDown
        (Crop.RoiWindow.init
          [⟨((40, 40), (60, 60)), 20, 20, false⟩,
           ⟨((0, 0), (200, 200)), 200, 200, false⟩]) 50 50).dragging = some 1 ∧
    (Crop.RoiWindow.leftMouseDown
        (Crop.RoiWindow.init
          [⟨((40, 40), (60, 60)), 20, 20, false⟩,
           ⟨((0, 0), (200, 200)), 200, 200, false⟩]) 50 50).activeModes = 2 := by
  decide

/-- C7: `deleteRoi` and the edit-dialog coordinate change mutate the ROI
geometry but leave `saved` untouched — evaluated at the failing input: a
session over one ROI `[[0,0],[10,10]]` with `saved = True`.  Deleting index
0 empties the collection with `saved` still `True`; applying edit-dialog
coordinates `(5,6),(50,60)` rewrites the ROI with `saved` still `True`.
The claim (and the spec sentence it comes from) requires `saved = False`
after every geometry-mutating transition, so the code contradicts the
purpose of its own `saved` flag ("for exit dialog"): these changes can be
silently discarded on close without the unsaved-changes prompt. -/
theorem c7_delete_edit_leave_saved :
    (Crop.RoiWindow.deleteRoi
        { Crop.RoiWindow.init [⟨((0, 0), (10, 10)), 10, 10, false⟩] with
          selection := [0] } [0]).saved = true ∧
    (Crop.RoiWindow.deleteRoi
        { Crop.RoiWindow.init [⟨((0, 0), (10, 10)), 10, 10, false⟩] with
          selection := [0] } [0]).roiCoordinates = [] ∧
    (Crop.RoiWindow.editRoiApply
        (Crop.RoiWindow.init [⟨((0, 0), (10, 10)), 10, 10, false⟩])
        0 5 6 50 60).saved = true ∧
    (Crop.RoiWindow.editRoiApply
        (Crop.RoiWindow.init [⟨((0, 0), (10, 10)), 10, 10, false⟩])
        0 5 6 50 60).roiCoordinates =
      [⟨((5, 6), (50, 60)), 45, 54, false⟩] := by
  decide

/-- C8: batch of 2 videos with ROI counts {2,1}, exactly one ffmpeg job
failing (any of the three jobs, enumerated by `k`), directories creatable:
the run reaches completion (`aborted = false`, all 3 jobs submitted), 2
jobs succeed and 1 error is reported, `total_crops = 3` is computed up
front, and `status_var.set` is invoked exactly 3 times — the initial reset
and once per success — with monotonically non-decreasing completed counts
`[0, 1, 2]`. -/
theorem c8_batch_partial_failure :
    ∀ k : Fin 3,
      Crop.cropVideo
          [[⟨((10, 10), (50, 60)), 40, 50, false⟩,
            ⟨((10, 10), (50, 60)), 40, 50, false⟩],
           [⟨((10, 10), (50, 60)), 40, 50, false⟩]]
          (fun v i => (v, i) = [(0, 1), (0, 2), (1, 1)].getD k (0, 0))
          (fun _ => false) =
        ⟨2, [0, 1, 2], 1,
         [⟨0, 1, 40, 50, 10, 10⟩, ⟨0, 2, 40, 50, 10, 10⟩, ⟨1, 1, 40, 50, 10, 10⟩],
         3, false⟩ ∧
      Crop.nondecreasing
        (Crop.cropVideo
          [[⟨((10, 10), (50, 60)), 40, 50, false⟩,
            ⟨((10, 10), (50, 60)), 40, 50, false⟩],
           [⟨((10, 10), (50, 60)), 40, 50, false⟩]]
          (fun v i => (v, i) = [(0, 1), (0, 2), (1, 1)].getD k (0, 0))
          (fun _ => false)).statusSets = true := by
  decide

/-- C9 (amended): `importRoisFile` performs no validation at all — any
imported entry, negative dimensions included, is accepted — and the merge
semantics are: replace overwrites the whole collection, otherwise the
imported list is appended after the existing one (an empty existing
collection is always overwritten, which coincides with appending). -/
theorem c9_import_merge_amended :
    ∀ (existing imported : List Crop.Roi),
      Crop.importRoisFile existing imported true = imported ∧
      Crop.importRoisFile existing imported false = existing ++ imported := by
  intro existing imported
  unfold Crop.importRoisFile
  rcases existing with _ | ⟨e, rest⟩ <;> simp

/-- C9 counterexample: importing a single entry of width −5 and height −7
into an empty collection succeeds and installs it — no `ValidationError`
is raised and the collection does change, contradicting "fails ... whenever
an imported entry has negative width or height, rejecting the action and
leaving the session's ROI collection unchanged". -/
theorem c9_counterexample :
    Crop.importRoisFile [] [⟨((0, 0), (-5, -7)), -5, -7, false⟩] true =
      [⟨((0, 0), (-5, -7)), -5, -7, false⟩] ∧
    ((⟨((0, 0), (-5, -7)), -5, -7, false⟩ : Crop.Roi)).width < 0 ∧
    ((⟨((0, 0), (-5, -7)), -5, -7, false⟩ : Crop.Roi)).height < 0 := by
  decide

/-- C10: `reset()` zeroes the corners and clears the draft flag but does not
recompute `width`/`height`, so immediately after `reset()` the Roi still
reports its previous dimensions; the next coordinate mutation (here
`setCoordinates(1, x, y, sort=False)`) recomputes them from the corners. -/
theorem c10_reset_keeps_stale_dimensions :
    ∀ (r : Crop.Roi),
      (r.reset).width = r.width ∧
      (r.reset).height = r.height ∧
      (r.reset).coordinates = ((0, 0), (0, 0)) ∧
      (r.reset).status = false ∧
      (∀ x y : Int,
        ((r.reset).setCoordinates 1 x y false).width = x ∧
        ((r.reset).setCoordinates 1 x y false).height = y) := by
  intro r
  refine ⟨rfl, rfl, rfl, rfl, ?_⟩
  intro x y
  constructor <;>
    simp [Crop.Roi.reset, Crop.Roi.setStatus, Crop.Roi.setCoordinates,
      Crop.Roi.calculateDimensions]

/-- `List.set` then `getD` at the written index returns the written value
when the index is in range. -/
theorem list_getD_set_self (l : List Crop.Roi) (n : Nat) (v d : Crop.Roi)
    (h : n < l.length) : (l.set n v).getD n d = v := by
  induction l generalizing n with
  | nil => simp at h
  | cons a t ih =>
    cases n with
    | zero => rfl
    | succ m =>
      simp only [List.set_cons_succ, List.getD_cons_succ]
      exact ih m (by simpa using h)

/-- `List.set` then `getD` at a different index is unchanged. -/
theorem list_getD_set_ne (l : List Crop.Roi) (n j : Nat) (v d : Crop.Roi)
    (h : n ≠ j) : (l.set n v).getD j d = l.getD j d := by
  induction l generalizing n j with
  | nil => rfl
  | cons a t ih =>
    cases n with
    | zero =>
      cases j with
      | zero => exact absurd rfl h
      | succ k => rfl
    | succ n' =>
      cases j with
      | zero => rfl
      | succ k =>
        simp only [List.set_cons_succ, List.getD_cons_succ]
        exact ih n' k (fun e => h (by rw [e]))

/-- One drag step only rewrites the ROI at its own index. -/
theorem dragStep_getD_ne (x y : Int) (rc : Crop.RelCoords) (rois : List Crop.Roi)
    (i j : Nat) (hij : i ≠ j) :
    (Crop.RoiWindow.dragStep x y rc rois i).getD j Crop.Roi.init =
      rois.getD j Crop.Roi.init := by
  simp only [Crop.RoiWindow.dragStep]
  exact list_getD_set_ne _ i j _ _ hij

/-- One drag step rewrites the ROI at its own index to the translated
rectangle computed from the recorded offset. -/
theorem dragStep_getD_self (x y : Int) (rc : Crop.RelCoords) (rois : List Crop.Roi)
    (i : Nat) (h : i < rois.length) :
    (Crop.RoiWindow.dragStep x y rc rois i).getD i Crop.Roi.init =
      (rois.getD i Crop.Roi.init).setRoi
        (x + (rc.lookupPair i).1, y + (rc.lookupPair i).2)
        ((rois.getD i Crop.Roi.init).width + x + (rc.lookupPair i).1,
         (rois.getD i Crop.Roi.init).height + y + (rc.lookupPair i).2) := by
  simp only [Crop.RoiWindow.dragStep]
  exact list_getD_set_self _ i _ _ h

/-- A drag step preserves the collection length. -/
theorem dragStep_length (x y : Int) (rc : Crop.RelCoords) (rois : List Crop.Roi)
    (i : Nat) :
    (Crop.RoiWindow.dragStep x y rc rois i).length = rois.length := by
  simp [Crop.RoiWindow.dragStep]

/-- Pointwise description of the drag fold of `leftMouseMove`: with a
duplicate-free selection of in-range indices, each selected index holds the
`setRoi`-translated rectangle computed from its own original entry, every
other index is untouched, and the length is unchanged. -/
theorem dragFold_getD (x y : Int) (rc : Crop.RelCoords) :
    ∀ (sel : List Nat) (rois : List Crop.Roi), sel.Nodup →
      (∀ i ∈ sel, i < rois.length) →
      (sel.foldl (Crop.RoiWindow.dragStep x y rc) rois).length = rois.length ∧
      (∀ j, j ∉ sel →
        (sel.foldl (Crop.RoiWindow.dragStep x y rc) rois).getD j Crop.Roi.init =
          rois.getD j Crop.Roi.init) ∧
      (∀ i ∈ sel,
        (sel.foldl (Crop.RoiWindow.dragStep x y rc) rois).getD i Crop.Roi.init =
          (rois.getD i Crop.Roi.init).setRoi
            (x + (rc.lookupPair i).1, y + (rc.lookupPair i).2)
            ((rois.getD i Crop.Roi.init).width + x + (rc.lookupPair i).1,
             (rois.getD i Crop.Roi.init).height + y + (rc.lookupPair i).2)) := by
  intro sel
  induction sel with
  | nil =>
    intro rois _ _
    exact ⟨rfl, fun j _ => rfl, fun i hi => absurd hi (List.not_mem_nil i)⟩
  | cons a tl ih =>
    intro rois hnd hlt
    rw [List.nodup_cons] at hnd
    obtain ⟨ha, hndtl⟩ := hnd
    have hlta : a < rois.length := hlt a (List.mem_cons_self a tl)
    have hlt1 : ∀ i ∈ tl, i < (Crop.RoiWindow.dragStep x y rc rois a).length := by
      intro i hi
      rw [dragStep_length]
      exact hlt i (List.mem_cons_of_mem a hi)
    obtain ⟨ihl, ihu, ihm⟩ := ih (Crop.RoiWindow.dragStep x y rc rois a) hndtl hlt1
    rw [List.foldl_cons]
    refine ⟨by rw [ihl, dragStep_length], ?_, ?_⟩
    · intro j hj
      have hj1 : j ∉ tl := fun h => hj (List.mem_cons_of_mem a h)
      have hja : a ≠ j := fun h => hj (h ▸ List.mem_cons_self a tl)
      rw [ihu j hj1, dragStep_getD_ne x y rc rois a j hja]
    · intro i hi
      rcases List.mem_cons.mp hi with h | h
      · subst h
        rw [ihu i ha, dragStep_getD_self x y rc rois i hlta]
      · have hia : a ≠ i := fun e => ha (e ▸ h)
        rw [ihm i h, dragStep_getD_ne x y rc rois a i hia]

/-- `setRoi` applied to a translated corner pair of a consistent,
nonnegatively-sized rectangle: sorting is the identity and the dimensions
are preserved. -/
theorem setRoi_translate (roi : Crop.Roi) (px py qx qy : Int)
    (hqx : qx = roi.width + px) (hqy : qy = roi.height + py)
    (hw : roi.width = roi.coordinates.2.1 - roi.coordinates.1.1)
    (hh : roi.height = roi.coordinates.2.2 - roi.coordinates.1.2)
    (hw0 : 0 ≤ roi.width) (hh0 : 0 ≤ roi.height) :
    roi.setRoi (px, py) (qx, qy) =
      ⟨((px, py), (qx, qy)), roi.width, roi.height, roi.status⟩ := by
  simp only [Crop.Roi.setRoi, Crop.Roi.sortCoordinates, Crop.Roi.calculateDimensions,
    Crop.Roi.mk.injEq, Prod.mk.injEq]
  refine ⟨⟨⟨?_, ?_⟩, ?_, ?_⟩, ?_, ?_, ?_⟩ <;> first | trivial | omega

/-- C5: while a drag is pending with a recorded per-index offset dictionary,
one pointer move to `(mx, my)` translates every selected ROI by the same
delta `(mx - dx, my - dy)` relative to the drag-start pointer `(dx, dy)`:
both corners shift by that delta and width, height and draft flag are
exactly preserved, provided each selected ROI is in range with the offset
recorded at drag start (`corners[0] - (dx, dy)`, as `leftMouseDown` stores
it) and consistent nonnegative cached dimensions.  Unselected ROIs and the
collection length are unchanged. -/
theorem c5_multidrag_translation :
    ∀ (s : Crop.RoiWindow) (d0 : Nat) (m : List (Nat × (Int × Int)))
      (dx dy mx my : Int),
      s.dragging = some d0 →
      s.relativeCoordinates = .dict m →
      s.selection.Nodup →
      (∀ i ∈ s.selection, i < s.roiCoordinates.length ∧
        (Crop.RelCoords.dict m).lookupPair i =
          ((s.roiCoordinates.getD i Crop.Roi.init).coordinates.1.1 - dx,
           (s.roiCoordinates.getD i Crop.Roi.init).coordinates.1.2 - dy) ∧
        (s.roiCoordinates.getD i Crop.Roi.init).width =
          (s.roiCoordinates.getD i Crop.Roi.init).coordinates.2.1 -
            (s.roiCoordinates.getD i Crop.Roi.init).coordinates.1.1 ∧
        (s.roiCoordinates.getD i Crop.Roi.init).height =
          (s.roiCoordinates.getD i Crop.Roi.init).coordinates.2.2 -
            (s.roiCoordinates.getD i Crop.Roi.init).coordinates.1.2 ∧
        0 ≤ (s.roiCoordinates.getD i Crop.Roi.init).width ∧
        0 ≤ (s.roiCoordinates.getD i Crop.Roi.init).height) →
      (∀ i ∈ s.selection,
        (Crop.RoiWindow.leftMouseMove s mx my).roiCoordinates.getD i Crop.Roi.init =
          ⟨(((s.roiCoordinates.getD i Crop.Roi.init).coordinates.1.1 + (mx - dx),
             (s.roiCoordinates.getD i Crop.Roi.init).coordinates.1.2 + (my - dy)),
            ((s.roiCoordinates.getD i Crop.Roi.init).coordinates.2.1 + (mx - dx),
             (s.roiCoordinates.getD i Crop.Roi.init).coordinates.2.2 + (my - dy))),
           (s.roiCoordinates.getD i Crop.Roi.init).width,
           (s.roiCoordinates.getD i Crop.Roi.init).height,
           (s.roiCoordinates.getD i Crop.Roi.init).status⟩) ∧
      (∀ j, j ∉ s.selection →
        (Crop.RoiWindow.leftMouseMove s mx my).roiCoordinates.getD j Crop.Roi.init =
          s.roiCoordinates.getD j Crop.Roi.init) ∧
      (Crop.RoiWindow.leftMouseMove s mx my).roiCoordinates.length =
        s.roiCoordinates.length := by
  intro s d0 m dx dy mx my hd hrc hnodup hsel
  have hmove : (Crop.RoiWindow.leftMouseMove s mx my).roiCoordinates =
      if s.selection.length > 0 then
        s.selection.foldl (Crop.RoiWindow.dragStep mx my s.relativeCoordinates)
          s.roiCoordinates
      else s.roiCoordinates := by
    simp only [Crop.RoiWindow.leftMouseMove, hd]
    split <;> rfl
  by_cases hlen : s.selection.length > 0
  · rw [if_pos hlen] at hmove
    obtain ⟨hL, hU, hM⟩ := dragFold_getD mx my s.relativeCoordinates s.selection
      s.roiCoordinates hnodup (fun i hi => (hsel i hi).1)
    refine ⟨?_, ?_, ?_⟩
    · intro i hi
      rw [hmove, hM i hi]
      obtain ⟨-, hoff, hw, hh, hw0, hh0⟩ := hsel i hi
      rw [hrc, hoff]
      dsimp only
      rw [setRoi_translate (s.roiCoordinates.getD i Crop.Roi.init) _ _ _ _
        (by omega) (by omega) hw hh hw0 hh0]
      simp only [Crop.Roi.mk.injEq, Prod.mk.injEq]
      refine ⟨⟨⟨?_, ?_⟩, ?_, ?_⟩, ?_, ?_, ?_⟩ <;> first | trivial | omega
    · intro j hj
      rw [hmove, hU j hj]
    · rw [hmove, hL]
  · rw [if_neg hlen] at hmove
    refine ⟨?_, ?_, ?_⟩
    · intro i hi
      exact absurd hi (by
        rw [List.length_eq_zero.mp (by omega : s.selection.length = 0)]
        exact List.not_mem_nil i)
    · intro j hj
      rw [hmove]
    · rw [hmove]

/-- Witness for C5 at a concrete input: `dragDemo` (selection `[0, 2]`,
drag started at (5,5)) moved to (8,9) — ROI 0's top-left corner translates
by (3,4), its width is preserved, and the unselected ROI 1 is untouched. -/
theorem c5_multidrag_witness :
    ((Crop.RoiWindow.leftMouseMove Crop.dragDemo 8 9).roiCoordinates.getD 0
        Crop.Roi.init) =
      ⟨((10 + (8 - 5), 10 + (9 - 5)), (30 + (8 - 5), 40 + (9 - 5))), 20, 30, false⟩ ∧
    ((Crop.RoiWindow.leftMouseMove Crop.dragDemo 8 9).roiCoordinates.getD 1
        Crop.Roi.init) = Crop.dragDemo.roiCoordinates.getD 1 Crop.Roi.init := by
  have h := c5_multidrag_translation Crop.dragDemo 0 [(0, (5, 5)), (2, (95, 95))]
    5 5 8 9 rfl rfl (by decide)
    (by intro i hi; fin_cases hi <;> exact ⟨by decide, by decide, by decide, by decide,
      by decide, by decide⟩)
  exact ⟨h.1 0 (by decide), h.2.1 1 (by decide)⟩


/-- C6 (amended): while a resize is pending with handle mask
`(l, t, r, b)` and anchor offsets `(ra, rb)`, a pointer move to `(x, y)`
changes only the axes flagged in the mask in the per-axis sense, for a
normalized ROI and a mask with at most one flag per axis (as every mask
produced by the hit-test has): an axis with no flag set keeps both corner
coordinates bit-for-bit; on a flagged axis the grabbed coordinate becomes
`pointer + offset`, and the OPPOSITE corner's coordinate on that axis is
unchanged only under the no-flip condition that the new value does not
cross it — per-axis normalization otherwise moves the updated value to the
opposite corner (the flip), so the claim's "corner coordinates not flagged
by the mask are bit-for-bit unchanged" holds only without a flip.  Other
ROIs are untouched. -/
theorem c6_resize_axis_effects :
    ∀ (s : Crop.RoiWindow) (k : Nat) (l t r b : Bool) (ra rb x y : Int),
      s.dragging = none →
      s.resizing = some (k, (l, t, r, b)) →
      s.relativeCoordinates = .pair ra rb →
      k < s.roiCoordinates.length →
      ¬(t = true ∧ b = true) →
      ¬(l = true ∧ r = true) →
      (s.roiCoordinates.getD k Crop.Roi.init).coordinates.1.1 ≤
        (s.roiCoordinates.getD k Crop.Roi.init).coordinates.2.1 →
      (s.roiCoordinates.getD k Crop.Roi.init).coordinates.1.2 ≤
        (s.roiCoordinates.getD k Crop.Roi.init).coordinates.2.2 →
      ((t = false ∧ b = false) →
        ((Crop.RoiWindow.leftMouseMove s x y).roiCoordinates.getD k
            Crop.Roi.init).coordinates.1.2 =
          (s.roiCoordinates.getD k Crop.Roi.init).coordinates.1.2 ∧
        ((Crop.RoiWindow.leftMouseMove s x y).roiCoordinates.getD k
            Crop.Roi.init).coordinates.2.2 =
          (s.roiCoordinates.getD k Crop.Roi.init).coordinates.2.2) ∧
      ((l = false ∧ r = false) →
        ((Crop.RoiWindow.leftMouseMove s x y).roiCoordinates.getD k
            Crop.Roi.init).coordinates.1.1 =
          (s.roiCoordinates.getD k Crop.Roi.init).coordinates.1.1 ∧
        ((Crop.RoiWindow.leftMouseMove s x y).roiCoordinates.getD k
            Crop.Roi.init).coordinates.2.1 =
          (s.roiCoordinates.getD k Crop.Roi.init).coordinates.2.1) ∧
      (t = true → y + rb ≤ (s.roiCoordinates.getD k Crop.Roi.init).coordinates.2.2 →
        ((Crop.RoiWindow.leftMouseMove s x y).roiCoordinates.getD k
            Crop.Roi.init).coordinates.1.2 = y + rb ∧
        ((Crop.RoiWindow.leftMouseMove s x y).roiCoordinates.getD k
            Crop.Roi.init).coordinates.2.2 =
          (s.roiCoordinates.getD k Crop.Roi.init).coordinates.2.2) ∧
      (b = true → (s.roiCoordinates.getD k Crop.Roi.init).coordinates.1.2 ≤ y + rb →
        ((Crop.RoiWindow.leftMouseMove s x y).roiCoordinates.getD k
            Crop.Roi.init).coordinates.2.2 = y + rb ∧
        ((Crop.RoiWindow.leftMouseMove s x y).roiCoordinates.getD k
            Crop.Roi.init).coordinates.1.2 =
          (s.roiCoordinates.getD k Crop.Roi.init).coordinates.1.2) ∧
      (l = true → x + ra ≤ (s.roiCoordinates.getD k Crop.Roi.init).coordinates.2.1 →
        ((Crop.RoiWindow.leftMouseMove s x y).roiCoordinates.getD k
            Crop.Roi.init).coordinates.1.1 = x + ra ∧
        ((Crop.RoiWindow.leftMouseMove s x y).roiCoordinates.getD k
            Crop.Roi.init).coordinates.2.1 =
          (s.roiCoordinates.getD k Crop.Roi.init).coordinates.2.1) ∧
      (r = true → (s.roiCoordinates.getD k Crop.Roi.init).coordinates.1.1 ≤ x + ra →
        ((Crop.RoiWindow.leftMouseMove s x y).roiCoordinates.getD k
            Crop.Roi.init).coordinates.2.1 = x + ra ∧
        ((Crop.RoiWindow.leftMouseMove s x y).roiCoordinates.getD k
            Crop.Roi.init).coordinates.1.1 =
          (s.roiCoordinates.getD k Crop.Roi.init).coordinates.1.1) ∧
      (∀ j, j ≠ k →
        (Crop.RoiWindow.leftMouseMove s x y).roiCoordinates.getD j Crop.Roi.init =
          s.roiCoordinates.getD j Crop.Roi.init) := by
  intro s k l t r b ra rb x y hd hres hrc hk hnot1 hnot2 hnx hny
  have hne : ∀ (v : Crop.Roi) (j : Nat), j ≠ k →
      (s.roiCoordinates.set k v).getD j Crop.Roi.init =
        s.roiCoordinates.getD j Crop.Roi.init :=
    fun v j hj => list_getD_set_ne _ _ _ _ _ (fun e => hj e.symm)
  cases t with
  | false =>
    cases b with
    | false =>
      cases l with
      | false =>
        cases r with
        | false =>
          simp only [Crop.RoiWindow.leftMouseMove, hd, hres, hrc, Crop.RelCoords.atIdx,
            Crop.Roi.setCoordinates, Crop.Roi.sortCoordinates, Crop.Roi.calculateDimensions,
            Bool.false_eq_true, if_true, if_false, reduceIte]
          rw [list_getD_set_self _ _ _ _ hk]
          refine ⟨fun hg => ?_, fun hg => ?_, fun hg hle => ?_, fun hg hle => ?_,
            fun hg hle => ?_, fun hg hle => ?_, fun j hj => hne _ j hj⟩ <;>
            first
            | exact hg.elim
            | trivial
            | (constructor <;> (first | trivial | omega))
            | omega
            | (dsimp only; constructor <;> (first | trivial | omega))
            | (dsimp only; omega)
        | true =>
          simp only [Crop.RoiWindow.leftMouseMove, hd, hres, hrc, Crop.RelCoords.atIdx,
            Crop.Roi.setCoordinates, Crop.Roi.sortCoordinates, Crop.Roi.calculateDimensions,
            Bool.false_eq_true, if_true, if_false, reduceIte]
          rw [list_getD_set_self _ _ _ _ hk]
          refine ⟨fun hg => ?_, fun hg => ?_, fun hg hle => ?_, fun hg hle => ?_,
            fun hg hle => ?_, fun hg hle => ?_, fun j hj => hne _ j hj⟩ <;>
            first
            | exact hg.elim
            | trivial
            | (constructor <;> (first | trivial | omega))
            | omega
            | (dsimp only; constructor <;> (first | trivial | omega))
            | (dsimp only; omega)
      | true =>
        cases r with
        | false =>
          simp only [Crop.RoiWindow.leftMouseMove, hd, hres, hrc, Crop.RelCoords.atIdx,
            Crop.Roi.setCoordinates, Crop.Roi.sortCoordinates, Crop.Roi.calculateDimensions,
            Bool.false_eq_true, if_true, if_false, reduceIte]
          rw [list_getD_set_self _ _ _ _ hk]
          refine ⟨fun hg => ?_, fun hg => ?_, fun hg hle => ?_, fun hg hle => ?_,
            fun hg hle => ?_, fun hg hle => ?_, fun j hj => hne _ j hj⟩ <;>
            first
            | exact hg.elim
            | trivial
            | (constructor <;> (first | trivial | omega))
            | omega
            | (dsimp only; constructor <;> (first | trivial | omega))
            | (dsimp only; omega)
        | true =>
          exact absurd ⟨rfl, rfl⟩ hnot2
    | true =>
      cases l with
      | false =>
        cases r with
        | false =>
          simp only [Crop.RoiWindow.leftMouseMove, hd, hres, hrc, Crop.RelCoords.atIdx,
            Crop.Roi.setCoordinates, Crop.Roi.sortCoordinates, Crop.Roi.calculateDimensions,
            Bool.false_eq_true, if_true, if_false, reduceIte]
          rw [list_getD_set_self _ _ _ _ hk]
          refine ⟨fun hg => ?_, fun hg => ?_, fun hg hle => ?_, fun hg hle => ?_,
            fun hg hle => ?_, fun hg hle => ?_, fun j hj => hne _ j hj⟩ <;>
            first
            | exact hg.elim
            | trivial
            | (constructor <;> (first | trivial | omega))
            | omega
            | (dsimp only; constructor <;> (first | trivial | omega))
            | (dsimp only; omega)
        | true =>
          simp only [Crop.RoiWindow.leftMouseMove, hd, hres, hrc, Crop.RelCoords.atIdx,
            Crop.Roi.setCoordinates, Crop.Roi.sortCoordinates, Crop.Roi.calculateDimensions,
            Bool.false_eq_true, if_true, if_false, reduceIte]
          rw [list_getD_set_self _ _ _ _ hk]
          refine ⟨fun hg => ?_, fun hg => ?_, fun hg hle => ?_, fun hg hle => ?_,
            fun hg hle => ?_, fun hg hle => ?_, fun j hj => hne _ j hj⟩ <;>
            first
            | exact hg.elim
            | trivial
            | (constructor <;> (first | trivial | omega))
            | omega
            | (dsimp only; constructor <;> (first | trivial | omega))
            | (dsimp only; omega)
      | true =>
        cases r with
        | false =>
          simp only [Crop.RoiWindow.leftMouseMove, hd, hres, hrc, Crop.RelCoords.atIdx,
            Crop.Roi.setCoordinates, Crop.Roi.sortCoordinates, Crop.Roi.calculateDimensions,
            Bool.false_eq_true, if_true, if_false, reduceIte]
          rw [list_getD_set_self _ _ _ _ hk]
          refine ⟨fun hg => ?_, fun hg => ?_, fun hg hle => ?_, fun hg hle => ?_,
            fun hg hle => ?_, fun hg hle => ?_, fun j hj => hne _ j hj⟩ <;>
            first
            | exact hg.elim
            | trivial
            | (constructor <;> (first | trivial | omega))
            | omega
            | (dsimp only; constructor <;> (first | trivial | omega))
            | (dsimp only; omega)
        | true =>
          exact absurd ⟨rfl, rfl⟩ hnot2
  | true =>
    cases b with
    | false =>
      cases l with
      | false =>
        cases r with
        | false =>
          simp only [Crop.RoiWindow.leftMouseMove, hd, hres, hrc, Crop.RelCoords.atIdx,
            Crop.Roi.setCoordinates, Crop.Roi.sortCoordinates, Crop.Roi.calculateDimensions,
            Bool.false_eq_true, if_true, if_false, reduceIte]
          rw [list_getD_set_self _ _ _ _ hk]
          refine ⟨fun hg => ?_, fun hg => ?_, fun hg hle => ?_, fun hg hle => ?_,
            fun hg hle => ?_, fun hg hle => ?_, fun j hj => hne _ j hj⟩ <;>
            first
            | exact hg.elim
            | trivial
            | (constructor <;> (first | trivial | omega))
            | omega
            | (dsimp only; constructor <;> (first | trivial | omega))
            | (dsimp only; omega)
        | true =>
          simp only [Crop.RoiWindow.leftMouseMove, hd, hres, hrc, Crop.RelCoords.atIdx,
            Crop.Roi.setCoordinates, Crop.Roi.sortCoordinates, Crop.Roi.calculateDimensions,
            Bool.false_eq_true, if_true, if_false, reduceIte]
          rw [list_getD_set_self _ _ _ _ hk]
          refine ⟨fun hg => ?_, fun hg => ?_, fun hg hle => ?_, fun hg hle => ?_,
            fun hg hle => ?_, fun hg hle => ?_, fun j hj => hne _ j hj⟩ <;>
            first
            | exact hg.elim
            | trivial
            | (constructor <;> (first | trivial | omega))
            | omega
            | (dsimp only; constructor <;> (first | trivial | omega))
            | (dsimp only; omega)
      | true =>
        cases r with
        | false =>
          simp only [Crop.RoiWindow.leftMouseMove, hd, hres, hrc, Crop.RelCoords.atIdx,
            Crop.Roi.setCoordinates, Crop.Roi.sortCoordinates, Crop.Roi.calculateDimensions,
            Bool.false_eq_true, if_true, if_false, reduceIte]
          rw [list_getD_set_self _ _ _ _ hk]
          refine ⟨fun hg => ?_, fun hg => ?_, fun hg hle => ?_, fun hg hle => ?_,
            fun hg hle => ?_, fun hg hle => ?_, fun j hj => hne _ j hj⟩ <;>
            first
            | exact hg.elim
            | trivial
            | (constructor <;> (first | trivial | omega))
            | omega
            | (dsimp only; constructor <;> (first | trivial | omega))
            | (dsimp only; omega)
        | true =>
          exact absurd ⟨rfl, rfl⟩ hnot2
    | true =>
      cases l with
      | false =>
        cases r with
        | false =>
          exact absurd ⟨rfl, rfl⟩ hnot1
        | true =>
          exact absurd ⟨rfl, rfl⟩ hnot1
      | true =>
        cases r with
        | false =>
          exact absurd ⟨rfl, rfl⟩ hnot1
        | true =>
          exact absurd ⟨rfl, rfl⟩ hnot1

/-- Witness for C6 (amended) at a concrete input: `resizeDemo` (top-edge
mask `(0,1,0,0)`, zero offsets) moved to (5,4), which does not cross the
bottom edge: the top coordinate becomes 4, the bottom and both x
coordinates are bit-for-bit unchanged, and the other ROI is untouched. -/
theorem c6_resize_witness :
    ((Crop.RoiWindow.leftMouseMove Crop.resizeDemo 5 4).roiCoordinates.getD 0
        Crop.Roi.init).coordinates.1.2 = 4 + 0 ∧
    ((Crop.RoiWindow.leftMouseMove Crop.resizeDemo 5 4).roiCoordinates.getD 0
        Crop.Roi.init).coordinates.2.2 =
      (Crop.resizeDemo.roiCoordinates.getD 0 Crop.Roi.init).coordinates.2.2 ∧
    ((Crop.RoiWindow.leftMouseMove Crop.resizeDemo 5 4).roiCoordinates.getD 0
        Crop.Roi.init).coordinates.1.1 =
      (Crop.resizeDemo.roiCoordinates.getD 0 Crop.Roi.init).coordinates.1.1 ∧
    ((Crop.RoiWindow.leftMouseMove Crop.resizeDemo 5 4).roiCoordinates.getD 1
        Crop.Roi.init) = Crop.resizeDemo.roiCoordinates.getD 1 Crop.Roi.init :=
  have h := c6_resize_axis_effects Crop.resizeDemo 0 false true false false 0 0 5 4
    rfl rfl rfl (by decide) (by decide) (by decide) (by decide) (by decide)
  ⟨(h.2.2.1 rfl (by decide)).1, (h.2.2.1 rfl (by decide)).2,
   (h.2.1 ⟨rfl, rfl⟩).1, h.2.2.2.2.2.2 1 (by decide)⟩

/-- C6 counterexample: `resizeDemo` holds ROI 0 = `[[0,0],[10,10]]` grabbed
by the TOP edge only (mask `(0,1,0,0)` — bottom not flagged).  Moving to
(5,20) drags the top edge past the bottom edge; normalization flips the
rectangle and the bottom corner's y coordinate — not flagged by the mask —
changes from 10 to 20, contradicting "the corner coordinates not flagged by
the mask are bit-for-bit unchanged after the update". -/
theorem c6_counterexample :
    Crop.resizeDemo.resizing = some (0, (false, true, false, false)) ∧
    ((Crop.RoiWindow.leftMouseMove Crop.resizeDemo 5 20).roiCoordinates.getD 0
        Crop.Roi.init).coordinates.2.2 = 20 ∧
    (Crop.resizeDemo.roiCoordinates.getD 0 Crop.Roi.init).coordinates.2.2 = 10 := by
  decide

/-- Witness for C3 (amended) at concrete inputs: the top-left corner zone of
`[[40,40],[60,60]]` classifies (50,50) as a top-left resize hit; with two
stacked `[[0,0],[100,100]]` bodies under (50,50) the pending drag lands on
the last index 1; and with `[[40,40],[60,60]]` registered last its corner
hit at (50,50) wins the resize slot and the selection. -/
theorem c3_hit_order_witness :
    Crop.RoiWindow.hitOne (⟨((40, 40), (60, 60)), 20, 20, false⟩ : Crop.Roi) 50 50 =
      some (.resize (true, true, false, false) (40 - 50, 40 - 50)) ∧
    (Crop.RoiWindow.leftMouseDown
        (Crop.RoiWindow.init
          [⟨((200, 200), (300, 300)), 100, 100, false⟩,
           ⟨((200, 200), (300, 300)), 100, 100, false⟩]) 250 250).dragging = some 1 ∧
    (Crop.RoiWindow.leftMouseDown
        (Crop.RoiWindow.init
          [⟨((0, 0), (100, 100)), 100, 100, false⟩,
           ⟨((40, 40), (60, 60)), 20, 20, false⟩]) 50 50).resizing =
      some (1, (true, true, false, false)) ∧
    (Crop.RoiWindow.leftMouseDown
        (Crop.RoiWindow.init
          [⟨((0, 0), (100, 100)), 100, 100, false⟩,
           ⟨((40, 40), (60, 60)), 20, 20, false⟩]) 50 50).selection = [1] :=
  have h3 := c3_hit_order_amended.2.2
    (Crop.RoiWindow.init
      [⟨((0, 0), (100, 100)), 100, 100, false⟩,
       ⟨((40, 40), (60, 60)), 20, 20, false⟩])
    [⟨((0, 0), (100, 100)), 100, 100, false⟩]
    (⟨((40, 40), (60, 60)), 20, 20, false⟩ : Crop.Roi) 50 50
    (true, true, false, false) (40 - 50, 40 - 50) rfl (by decide)
  ⟨c3_hit_order_amended.1 (⟨((40, 40), (60, 60)), 20, 20, false⟩ : Crop.Roi) 50 50
      (by decide) (by decide) (by decide) (by decide),
   c3_hit_order_amended.2.1
     (Crop.RoiWindow.init
       [⟨((200, 200), (300, 300)), 100, 100, false⟩,
        ⟨((200, 200), (300, 300)), 100, 100, false⟩])
     [⟨((200, 200), (300, 300)), 100, 100, false⟩]
     (⟨((200, 200), (300, 300)), 100, 100, false⟩ : Crop.Roi) 250 250 rfl (by decide),
   h3.1, h3.2⟩
